import Mathlib

/-!
Verification of the agent-launcher in `src/src-tauri/src/main.rs`.

The program is a single linear procedure `start_python_agent` plus the
enclosing application setup hook in `main`.  We embed it shallowly:

* a filesystem path is its list of components (`Path`), with `Path.pop`
  and `Path.push` mirroring Rust's `PathBuf::pop` / `PathBuf::push`;
* the outside world is an `Env` record giving the result of every OS
  call the procedure makes (`std::env::current_exe`, `Path::exists`,
  `Command::spawn`, `Child::try_wait`);
* the procedure is a pure function from an `Env` to its `Result` value
  together with the ordered list of observable side effects (`Event`)
  it performed: console prints, the existence probe, the spawn, the
  sleep, and every operation on the child handle.

`Event` also has constructors `killedChild` / `waitedChild` standing for
`Child::kill` / `Child::wait`; the source never calls either (and Rust's
`Child` does not kill on drop), so the embedding never emits them, which
lets absence-of-supervision claims be stated over the trace.
-/

namespace LiseAgentDesktop

/-- A filesystem path, modelled as its list of components.  The OS-level
path syntax (drive prefixes, separators) is abstracted away; only the
component structure matters to the program. -/
abbrev Path := List String

/-- Rust `PathBuf::pop`: remove the last component.  (On a path that is
only a root, Rust's `pop` is a no-op returning `false`; `dropLast` on
`[]` is likewise a no-op.) -/
def Path.pop (p : Path) : Path := p.dropLast

/-- Rust `PathBuf::push` with a single relative component: append it. -/
def Path.push (p : Path) (s : String) : Path := p ++ [s]

/-- Rendering of a path inside a log message, standing in for the Rust
`{:?}` Debug formatting of `PathBuf`: components joined and quoted. -/
def pathDebug (p : Path) : String :=
  "\"" ++ String.intercalate ("\\") p ++ "\""

/-- Observable side effects of the launcher, in program order.
`printed` / `eprinted` are `println!` / `eprintln!`; `existsCheck` is the
`Path::exists` probe; `spawned` is `Command::new(..).spawn()` (with both
standard streams piped, which the claims do not inspect); `slept` is
`thread::sleep`; `polled` is `Child::try_wait`; `killedChild` and
`waitedChild` stand for `Child::kill` / `Child::wait`, never called by
the source. -/
inductive Event where
  | printed (s : String)
  | eprinted (s : String)
  | existsCheck (p : Path)
  | spawned (p : Path)
  | slept (secs : Nat)
  | polled
  | killedChild
  | waitedChild
  deriving DecidableEq

/-- True exactly on sleep events. -/
def Event.isSlept : Event → Bool
  | Event.slept _ => true
  | _ => false

/-- True exactly on the `try_wait` poll event. -/
def Event.isPoll : Event → Bool
  | Event.polled => true
  | _ => false

/-- True exactly on spawn events. -/
def Event.isSpawn : Event → Bool
  | Event.spawned _ => true
  | _ => false

/-- True on every operation performed on the child handle: the poll,
a kill, or a blocking wait. -/
def Event.isChildOp : Event → Bool
  | Event.polled => true
  | Event.killedChild => true
  | Event.waitedChild => true
  | _ => false

/-- A trace with no sleep events. -/
def sleepFree (tr : List Event) : Bool := tr.all (fun e => !(Event.isSlept e))

/-- The results of the OS calls the launcher makes, fixing one execution.
`current_exe` is `std::env::current_exe()` (fallible); `debug_assertions`
is the compile-time `cfg!(debug_assertions)` flag; `path_exists` answers
the `Path::exists` probe; `spawn_result` is `Command::spawn` (a pid on
success, an io error rendered as a string on failure); `try_wait_result`
is `Child::try_wait`: `ok (some status)` when the child already exited,
`ok none` when it is still running, `error e` when the check itself
failed, with the Rust `ExitStatus` modelled as an `Int`. -/
structure Env where
  current_exe : Except String Path
  debug_assertions : Bool
  path_exists : Path → Bool
  spawn_result : Except String Nat
  try_wait_result : Except String (Option Int)

/-- Log line `println!("🚀 Starting Python agent...")`. -/
def startAgentMsg : String := "🚀 Starting Python agent..."

/-- Log line `println!("Looking for agent at: {:?}", agent_path)`. -/
def lookingMsg (p : Path) : String := "Looking for agent at: " ++ pathDebug p

/-- Error `format!("Python agent not found at: {:?}", agent_path)`. -/
def notFoundMsg (p : Path) : String := "Python agent not found at: " ++ pathDebug p

/-- Log line `println!("✓ Python agent started with PID: {}", child.id())`. -/
def pidMsg (pid : Nat) : String := "✓ Python agent started with PID: " ++ toString pid

/-- Error `format!("Python agent exited early with status: {}", status)`. -/
def exitedEarlyMsg (status : Int) : String :=
  "Python agent exited early with status: " ++ toString status

/-- Error `format!("Failed to check agent status: {}", e)`. -/
def checkFailMsg (e : String) : String := "Failed to check agent status: " ++ e

/-- Log line `println!("✓ Python agent is running")`. -/
def runningMsg : String := "✓ Python agent is running"

/-- Log line `println!("🚀 LISE Agent Desktop starting...")`. -/
def desktopStartMsg : String := "🚀 LISE Agent Desktop starting..."

/-- Log line `println!("✓ Python agent started successfully")`. -/
def startedOkMsg : String := "✓ Python agent started successfully"

/-- Log line `println!("🌐 Agent available at http://localhost:8000")`. -/
def endpointMsg : String := "🌐 Agent available at http://localhost:8000"

/-- Error log `eprintln!("❌ Failed to start Python agent: {}", e)`. -/
def failedStartMsg (e : String) : String := "❌ Failed to start Python agent: " ++ e

/-- Error log `eprintln!("Please ensure the Python agent is built and available.")`. -/
def ensureBuiltMsg : String := "Please ensure the Python agent is built and available."

/-- Lines 13–28 of `main.rs`: starting from the current executable path,
`pop()` the executable name, then in debug builds `pop()` three more
times (the source comments them `Remove target`, `Remove debug`,
`Remove target`) and `push` `agent`, `dist`, `lise-agent.exe`; in
release builds just `push` `lise-agent.exe`. -/
def resolve_agent_path (debug_assertions : Bool) (current_exe : Path) : Path :=
  let agent_path := Path.pop current_exe
  if debug_assertions then
    Path.push (Path.push (Path.push
      (Path.pop (Path.pop (Path.pop agent_path))) ("agent")) ("dist")) ("lise-agent.exe")
  else
    Path.push agent_path ("lise-agent.exe")

/-- The procedure `start_python_agent` from `main.rs`, returning its `Result` (errors
are the human-readable strings the source builds) paired with the trace
of side effects it performed, in order. -/
def start_python_agent (env : Env) : Except String Unit × List Event :=
  let tr0 : List Event := [Event.printed startAgentMsg]
  match env.current_exe with
  | Except.error e => (Except.error e, tr0)
  | Except.ok exe =>
    let agent_path := resolve_agent_path env.debug_assertions exe
    let tr1 := tr0 ++ [Event.printed (lookingMsg agent_path), Event.existsCheck agent_path]
    if !(env.path_exists agent_path) then
      (Except.error (notFoundMsg agent_path), tr1)
    else
      match env.spawn_result with
      | Except.error e => (Except.error e, tr1 ++ [Event.spawned agent_path])
      | Except.ok pid =>
        let tr2 := tr1 ++ [Event.spawned agent_path, Event.printed (pidMsg pid),
                           Event.slept 2, Event.polled]
        match env.try_wait_result with
        | Except.ok (some status) => (Except.error (exitedEarlyMsg status), tr2)
        | Except.ok none => (Except.ok (), tr2 ++ [Event.printed runningMsg])
        | Except.error e => (Except.error (checkFailMsg e), tr2)

/-- The setup closure passed to `tauri::Builder::setup` in `main`
(lines 66–82): print the banner, run `start_python_agent`, log its
outcome, and return `Ok(())` unconditionally. -/
def main_setup (env : Env) : Except String Unit × List Event :=
  let r := start_python_agent env
  let tr0 := Event.printed desktopStartMsg :: r.2
  match r.1 with
  | Except.ok _ =>
      (Except.ok (), tr0 ++ [Event.printed startedOkMsg, Event.printed endpointMsg])
  | Except.error e =>
      (Except.ok (), tr0 ++ [Event.eprinted (failedStartMsg e), Event.eprinted ensureBuiltMsg])

/-- Modelled from the spec: the repository's second startup-hook variant
is not under `src/`; per the spec it "omits the entire launch attempt and
simply logs an assumption that the companion process is already available
on a fixed local network endpoint", always reporting setup success. -/
def setup_hook_variant : Except String Unit × List Event :=
  (Except.ok (), [Event.printed desktopStartMsg, Event.printed endpointMsg])

/-- The debug-build companion path exactly as the spec words it: take the
current executable's directory, walk up three parent directories, then
append the fixed relative subdirectory `agent/dist` and the filename
`lise-agent.exe`. -/
def spec_debug_companion_path (current_exe : Path) : Path :=
  let exe_dir := Path.pop current_exe
  let up_three := Path.pop (Path.pop (Path.pop exe_dir))
  up_three ++ ["agent", "dist", "lise-agent.exe"]

/-- The release-build companion path exactly as the spec words it: the
fixed filename `lise-agent.exe` directly in the same directory as the
current executable. -/
def spec_release_companion_path (current_exe : Path) : Path :=
  Path.pop current_exe ++ ["lise-agent.exe"]

/-- A concrete executable location used to instantiate the theorems. -/
def testExe : Path := ["C:", "repo", "src-tauri", "target", "debug", "lise-agent-desktop.exe"]

/-- A concrete execution: debug build, companion path present, spawn
succeeds, the child is still running at the poll. -/
def envDebug : Env :=
  { current_exe := Except.ok testExe
    debug_assertions := true
    path_exists := fun _ => true
    spawn_result := Except.ok 42
    try_wait_result := Except.ok none }

/-- A concrete execution: release build, companion path present, spawn
succeeds, the child is still running at the poll. -/
def envRelease : Env :=
  { current_exe := Except.ok testExe
    debug_assertions := false
    path_exists := fun _ => true
    spawn_result := Except.ok 42
    try_wait_result := Except.ok none }

/-- A concrete execution in which the resolved companion path does not
exist. -/
def envMissing : Env :=
  { current_exe := Except.ok testExe
    debug_assertions := true
    path_exists := fun _ => false
    spawn_result := Except.ok 42
    try_wait_result := Except.ok none }

/-- A concrete execution in which the path exists but the spawn call
itself fails with an OS error. -/
def envSpawnFail : Env :=
  { current_exe := Except.ok testExe
    debug_assertions := true
    path_exists := fun _ => true
    spawn_result := Except.error ("Access is denied. (os error 5)")
    try_wait_result := Except.ok none }

/-- Whatever the outcome, every execution of `start_python_agent` whose
`current_exe` call succeeds prints the banner, prints the resolved path,
and probes that path for existence, in that order, before anything
else. -/
theorem start_trace_shape (env : Env) (exe : Path)
    (hexe : env.current_exe = Except.ok exe) :
    ∃ tail, (start_python_agent env).2 =
      Event.printed startAgentMsg ::
      Event.printed (lookingMsg (resolve_agent_path env.debug_assertions exe)) ::
      Event.existsCheck (resolve_agent_path env.debug_assertions exe) :: tail := by
  unfold start_python_agent
  rw [hexe]
  cases hb : env.path_exists (resolve_agent_path env.debug_assertions exe) <;>
    rcases hs : env.spawn_result with e | pid <;>
      rcases hw : env.try_wait_result with e2 | (_ | s) <;>
        simp [hb, hs, hw]

/-- C1: in a debug build, the companion path `start_python_agent`
resolves — and probes for existence — is the current executable's
directory, up three parents, then `agent/dist/lise-agent.exe`, exactly
the spec's derivation. -/
theorem c1_debug_path_resolution (env : Env) (exe : Path)
    (hexe : env.current_exe = Except.ok exe)
    (hdbg : env.debug_assertions = true) :
    resolve_agent_path env.debug_assertions exe = spec_debug_companion_path exe ∧
    Event.existsCheck (spec_debug_companion_path exe) ∈ (start_python_agent env).2 := by
  have hres : resolve_agent_path env.debug_assertions exe = spec_debug_companion_path exe := by
    rw [hdbg]
    simp [resolve_agent_path, spec_debug_companion_path, Path.pop, Path.push]
  refine ⟨hres, ?_⟩
  obtain ⟨tail, ht⟩ := start_trace_shape env exe hexe
  rw [ht, ← hres]
  simp

/-- Witness for C1 at a concrete debug-build execution. -/
theorem c1_debug_path_resolution_witness :
    resolve_agent_path envDebug.debug_assertions testExe = spec_debug_companion_path testExe ∧
    Event.existsCheck (spec_debug_companion_path testExe) ∈ (start_python_agent envDebug).2 :=
  c1_debug_path_resolution envDebug testExe (by rfl) (by rfl)

/-- C2: in a release build, the companion path `start_python_agent`
resolves — and probes for existence — is the fixed filename
`lise-agent.exe` directly in the current executable's directory, exactly
the spec's derivation. -/
theorem c2_release_path_resolution (env : Env) (exe : Path)
    (hexe : env.current_exe = Except.ok exe)
    (hrel : env.debug_assertions = false) :
    resolve_agent_path env.debug_assertions exe = spec_release_companion_path exe ∧
    Event.existsCheck (spec_release_companion_path exe) ∈ (start_python_agent env).2 := by
  have hres : resolve_agent_path env.debug_assertions exe = spec_release_companion_path exe := by
    rw [hrel]
    simp [resolve_agent_path, spec_release_companion_path, Path.pop, Path.push]
  refine ⟨hres, ?_⟩
  obtain ⟨tail, ht⟩ := start_trace_shape env exe hexe
  rw [ht, ← hres]
  simp

/-- Witness for C2 at a concrete release-build execution. -/
theorem c2_release_path_resolution_witness :
    resolve_agent_path envRelease.debug_assertions testExe = spec_release_companion_path testExe ∧
    Event.existsCheck (spec_release_companion_path testExe) ∈ (start_python_agent envRelease).2 :=
  c2_release_path_resolution envRelease testExe (by rfl) (by rfl)

/-- C3: when the resolved companion path does not exist,
`start_python_agent` returns the not-found error built from that path,
and its whole side-effect trace is the two log lines plus the read-only
existence probe — in particular no spawn is attempted. -/
theorem c3_missing_path_no_spawn (env : Env) (exe : Path)
    (hexe : env.current_exe = Except.ok exe)
    (hne : env.path_exists (resolve_agent_path env.debug_assertions exe) = false) :
    (start_python_agent env).1 =
      Except.error (notFoundMsg (resolve_agent_path env.debug_assertions exe)) ∧
    (start_python_agent env).2 =
      [Event.printed startAgentMsg,
       Event.printed (lookingMsg (resolve_agent_path env.debug_assertions exe)),
       Event.existsCheck (resolve_agent_path env.debug_assertions exe)] ∧
    ((start_python_agent env).2.all (fun e => !(Event.isSpawn e))) = true := by
  unfold start_python_agent
  rw [hexe]
  simp [hne, Event.isSpawn]

/-- Witness for C3 at a concrete execution with a missing companion
binary. -/
theorem c3_missing_path_no_spawn_witness :
    (start_python_agent envMissing).1 =
      Except.error (notFoundMsg (resolve_agent_path envMissing.debug_assertions testExe)) ∧
    (start_python_agent envMissing).2 =
      [Event.printed startAgentMsg,
       Event.printed (lookingMsg (resolve_agent_path envMissing.debug_assertions testExe)),
       Event.existsCheck (resolve_agent_path envMissing.debug_assertions testExe)] ∧
    ((start_python_agent envMissing).2.all (fun e => !(Event.isSpawn e))) = true :=
  c3_missing_path_no_spawn envMissing testExe (by rfl) (by rfl)

/-- C4: when the spawn succeeds, the execution contains exactly one
`try_wait` poll, and the result is decided by that poll's three possible
answers: child already exited — error carrying its exit status; child
still running — success; the status check itself failed — error carrying
the OS error. -/
theorem c4_single_poll_three_outcomes (env : Env) (exe : Path) (pid : Nat)
    (hexe : env.current_exe = Except.ok exe)
    (hex : env.path_exists (resolve_agent_path env.debug_assertions exe) = true)
    (hsp : env.spawn_result = Except.ok pid) :
    ((start_python_agent env).2.filter Event.isPoll) = [Event.polled] ∧
    (match env.try_wait_result with
     | Except.ok (some status) =>
         (start_python_agent env).1 = Except.error (exitedEarlyMsg status)
     | Except.ok none => (start_python_agent env).1 = Except.ok ()
     | Except.error e => (start_python_agent env).1 = Except.error (checkFailMsg e)) := by
  unfold start_python_agent
  rw [hexe]
  rcases hw : env.try_wait_result with e | (_ | s) <;>
    simp [hex, hsp, hw, Event.isPoll]

/-- Witness for C4 at a concrete execution whose poll finds the child
running. -/
theorem c4_single_poll_three_outcomes_witness :
    ((start_python_agent envDebug).2.filter Event.isPoll) = [Event.polled] ∧
    (match envDebug.try_wait_result with
     | Except.ok (some status) =>
         (start_python_agent envDebug).1 = Except.error (exitedEarlyMsg status)
     | Except.ok none => (start_python_agent envDebug).1 = Except.ok ()
     | Except.error e => (start_python_agent envDebug).1 = Except.error (checkFailMsg e)) :=
  c4_single_poll_three_outcomes envDebug testExe 42 (by rfl) (by rfl) (by rfl)

/-- C5: when the spawn succeeds, the whole execution sleeps exactly once,
for the fixed 2 seconds, and the first seven events in program order show
that single sleep sitting strictly between the spawn and the poll. -/
theorem c5_sleep_once_between_spawn_and_poll (env : Env) (exe : Path) (pid : Nat)
    (hexe : env.current_exe = Except.ok exe)
    (hex : env.path_exists (resolve_agent_path env.debug_assertions exe) = true)
    (hsp : env.spawn_result = Except.ok pid) :
    ((start_python_agent env).2.filter Event.isSlept) = [Event.slept 2] ∧
    (start_python_agent env).2.take 7 =
      [Event.printed startAgentMsg,
       Event.printed (lookingMsg (resolve_agent_path env.debug_assertions exe)),
       Event.existsCheck (resolve_agent_path env.debug_assertions exe),
       Event.spawned (resolve_agent_path env.debug_assertions exe),
       Event.printed (pidMsg pid),
       Event.slept 2, Event.polled] := by
  unfold start_python_agent
  rw [hexe]
  rcases hw : env.try_wait_result with e | (_ | s) <;>
    simp [hex, hsp, hw, Event.isSlept]

/-- Witness for C5 at a concrete execution with a successful spawn. -/
theorem c5_sleep_once_between_spawn_and_poll_witness :
    ((start_python_agent envDebug).2.filter Event.isSlept) = [Event.slept 2] ∧
    (start_python_agent envDebug).2.take 7 =
      [Event.printed startAgentMsg,
       Event.printed (lookingMsg (resolve_agent_path envDebug.debug_assertions testExe)),
       Event.existsCheck (resolve_agent_path envDebug.debug_assertions testExe),
       Event.spawned (resolve_agent_path envDebug.debug_assertions testExe),
       Event.printed (pidMsg 42),
       Event.slept 2, Event.polled] :=
  c5_sleep_once_between_spawn_and_poll envDebug testExe 42 (by rfl) (by rfl) (by rfl)

/-- C7: when the poll finds the child still running, the launcher returns
success, its complete trace ends with the poll followed only by the
success log line, and the poll is the only operation ever performed on
the child handle — no second poll, no blocking wait, no kill. -/
theorem c7_running_child_left_alone (env : Env) (exe : Path) (pid : Nat)
    (hexe : env.current_exe = Except.ok exe)
    (hex : env.path_exists (resolve_agent_path env.debug_assertions exe) = true)
    (hsp : env.spawn_result = Except.ok pid)
    (hrun : env.try_wait_result = Except.ok none) :
    (start_python_agent env).1 = Except.ok () ∧
    (start_python_agent env).2 =
      [Event.printed startAgentMsg,
       Event.printed (lookingMsg (resolve_agent_path env.debug_assertions exe)),
       Event.existsCheck (resolve_agent_path env.debug_assertions exe),
       Event.spawned (resolve_agent_path env.debug_assertions exe),
       Event.printed (pidMsg pid),
       Event.slept 2, Event.polled, Event.printed runningMsg] ∧
    ((start_python_agent env).2.filter Event.isChildOp) = [Event.polled] := by
  unfold start_python_agent
  rw [hexe]
  simp [hex, hsp, hrun, Event.isChildOp]

/-- Witness for C7 at a concrete execution whose poll finds the child
running. -/
theorem c7_running_child_left_alone_witness :
    (start_python_agent envDebug).1 = Except.ok () ∧
    (start_python_agent envDebug).2 =
      [Event.printed startAgentMsg,
       Event.printed (lookingMsg (resolve_agent_path envDebug.debug_assertions testExe)),
       Event.existsCheck (resolve_agent_path envDebug.debug_assertions testExe),
       Event.spawned (resolve_agent_path envDebug.debug_assertions testExe),
       Event.printed (pidMsg 42),
       Event.slept 2, Event.polled, Event.printed runningMsg] ∧
    ((start_python_agent envDebug).2.filter Event.isChildOp) = [Event.polled] :=
  c7_running_child_left_alone envDebug testExe 42 (by rfl) (by rfl) (by rfl) (by rfl)

/-- C9: when the path exists but the spawn call itself fails, the spawn's
error is returned as-is and the execution stops at the failed spawn: the
complete trace ends with the spawn attempt, so there is no sleep, no
poll, and no child-started log line. -/
theorem c9_spawn_failure_aborts (env : Env) (exe : Path) (e : String)
    (hexe : env.current_exe = Except.ok exe)
    (hex : env.path_exists (resolve_agent_path env.debug_assertions exe) = true)
    (hsp : env.spawn_result = Except.error e) :
    (start_python_agent env).1 = Except.error e ∧
    (start_python_agent env).2 =
      [Event.printed startAgentMsg,
       Event.printed (lookingMsg (resolve_agent_path env.debug_assertions exe)),
       Event.existsCheck (resolve_agent_path env.debug_assertions exe),
       Event.spawned (resolve_agent_path env.debug_assertions exe)] ∧
    sleepFree (start_python_agent env).2 = true ∧
    ((start_python_agent env).2.filter Event.isPoll) = [] := by
  unfold start_python_agent
  rw [hexe]
  simp [hex, hsp, sleepFree, Event.isSlept, Event.isPoll]

/-- Witness for C9 at a concrete execution with a failing spawn. -/
theorem c9_spawn_failure_aborts_witness :
    (start_python_agent envSpawnFail).1 =
      Except.error ("Access is denied. (os error 5)") ∧
    (start_python_agent envSpawnFail).2 =
      [Event.printed startAgentMsg,
       Event.printed (lookingMsg (resolve_agent_path envSpawnFail.debug_assertions testExe)),
       Event.existsCheck (resolve_agent_path envSpawnFail.debug_assertions testExe),
       Event.spawned (resolve_agent_path envSpawnFail.debug_assertions testExe)] ∧
    sleepFree (start_python_agent envSpawnFail).2 = true ∧
    ((start_python_agent envSpawnFail).2.filter Event.isPoll) = [] :=
  c9_spawn_failure_aborts envSpawnFail testExe ("Access is denied. (os error 5)")
    (by rfl) (by rfl) (by rfl)

/-- C6: the setup closure in `main` always returns `Ok(())` to the host
framework — success and every error of `start_python_agent` alike — and
it logs each outcome: the success banner on success, and on failure the
two standard-error lines carrying the launcher's error message. -/
theorem c6_setup_swallows_errors (env : Env) :
    (main_setup env).1 = Except.ok () ∧
    (match (start_python_agent env).1 with
     | Except.ok _ => Event.printed startedOkMsg ∈ (main_setup env).2
     | Except.error e =>
         Event.eprinted (failedStartMsg e) ∈ (main_setup env).2 ∧
         Event.eprinted ensureBuiltMsg ∈ (main_setup env).2) := by
  unfold main_setup
  rcases hr : (start_python_agent env).1 with e | u <;> simp [hr]

/-- C8: the repository's alternate startup-hook variant (modelled from
the spec) performs no spawn at all, reports setup success, and logs the
assumption that the agent is already available at the fixed local
endpoint. -/
theorem c8_variant_never_spawns :
    setup_hook_variant.1 = Except.ok () ∧
    (setup_hook_variant.2.all (fun e => !(Event.isSpawn e))) = true ∧
    Event.printed endpointMsg ∈ setup_hook_variant.2 := by
  refine ⟨rfl, rfl, ?_⟩
  simp [setup_hook_variant]

/-- In both build modes the resolved companion path ends in the fixed
filename `lise-agent.exe`. -/
theorem resolve_agent_path_getLast (d : Bool) (exe : Path) :
    (resolve_agent_path d exe).getLast? = some ("lise-agent.exe") := by
  cases d <;> simp [resolve_agent_path, Path.push, Path.pop]

/-- C10: in any execution, a path probed by the existence check and a
path handed to the spawn are the same path, and that path's final
component is the fixed filename `lise-agent.exe` (in debug and release
builds alike, since `env.debug_assertions` is unconstrained here). -/
theorem c10_checked_path_is_spawned_path (env : Env) (exe : Path) (p q : Path)
    (hexe : env.current_exe = Except.ok exe)
    (hp : Event.existsCheck p ∈ (start_python_agent env).2)
    (hq : Event.spawned q ∈ (start_python_agent env).2) :
    p = q ∧ q.getLast? = some ("lise-agent.exe") := by
  unfold start_python_agent at hp hq
  rw [hexe] at hp hq
  cases hb : env.path_exists (resolve_agent_path env.debug_assertions exe) <;>
    rcases hs : env.spawn_result with e | pid <;>
      rcases hw : env.try_wait_result with e2 | (_ | s) <;>
        simp [hb, hs, hw] at hp hq <;>
          simp [hp, hq, resolve_agent_path_getLast]

/-- Witness for C10 at a concrete execution. -/
theorem c10_checked_path_is_spawned_path_witness :
    resolve_agent_path envDebug.debug_assertions testExe =
      resolve_agent_path envDebug.debug_assertions testExe ∧
    (resolve_agent_path envDebug.debug_assertions testExe).getLast? =
      some ("lise-agent.exe") :=
  c10_checked_path_is_spawned_path envDebug testExe
    (resolve_agent_path envDebug.debug_assertions testExe)
    (resolve_agent_path envDebug.debug_assertions testExe)
    (by rfl) (by decide) (by decide)

end LiseAgentDesktop
